import Mathlib

/-!
Shallow embedding of `src/main.py` (Digi_web_backend), a FastAPI relay with
four handlers: a status endpoint, a weather proxy (`get_weather`), a chat
proxy to a generative-AI provider (`chat_with_ai`) and a model-list handler
(`list_models`).

Outbound network calls are modelled as oracle parameters; each handler
returns, besides its HTTP outcome, the list of outbound calls it performed,
so that "what is sent onward" is an observable of the embedding.

Python string primitives used by the code (`sep in s`, `s.split(sep)[1]`)
are embedded as structurally recursive functions on character lists, so
that every definition evaluates inside the kernel.
-/

namespace DigiWeb

/-- `isPrefixCL t s` : the character list `t` is a prefix of `s`. -/
def isPrefixCL : List Char → List Char → Bool
  | [], _ => true
  | _ :: _, [] => false
  | a :: as, b :: bs => a == b && isPrefixCL as bs

/-- Worker for `pySplit`: scan `s` left to right; on each (non-overlapping)
occurrence of `sep` cut a field. `acc` holds the current field reversed.
`fuel` only forces structural termination; with `fuel > s.length` the
fuel-exhaustion arm is never reached. -/
def pySplitGo (sep : List Char) : Nat → List Char → List Char → List (List Char)
  | _, acc, [] => [acc.reverse]
  | 0, acc, s => [acc.reverse ++ s]
  | fuel + 1, acc, c :: rest =>
    if isPrefixCL sep (c :: rest) then
      acc.reverse :: pySplitGo sep fuel [] (rest.drop (sep.length - 1))
    else
      pySplitGo sep fuel (c :: acc) rest

/-- Python's `s.split(sep)` for a nonempty separator: the list of fields
between consecutive non-overlapping occurrences of `sep`, scanned left to
right (`"".split(sep) = [""]`, `sep.split(sep) = ["", ""]`). -/
def pySplit (s sep : String) : List String :=
  (pySplitGo sep.data (s.data.length + 1) [] s.data).map (fun l => ⟨l⟩)

/-- Python's `t in s` (substring containment) for a nonempty `t`: `t`
occurs in `s` iff splitting `s` on `t` yields at least two fields. -/
def containsS (s t : String) : Bool := 2 ≤ (pySplit s t).length

/-- The substring of `s` strictly after the first occurrence of `sep`
(`none` when `sep` does not occur in `s`; `sep` is assumed nonempty).
This follows the spec's words — "the substring of the payload after the
first occurrence of `base64,`" — for comparison with the code's
`image_data`. -/
def afterFirstCL (sep : List Char) : List Char → Option (List Char)
  | [] => none
  | c :: rest =>
    if isPrefixCL sep (c :: rest) then some ((c :: rest).drop sep.length)
    else afterFirstCL sep rest

/-- String version of `afterFirstCL`; the spec-side notion of "the
substring after the first occurrence". -/
def substringAfterFirst (sep s : String) : Option String :=
  (afterFirstCL sep.data s.data).map (fun l => ⟨l⟩)

/-- A content part handed to the provider's `generate_content`: either a
plain string or an inline-data dict `{"mime_type": ..., "data": ...}`. -/
inductive Part where
  | text (s : String)
  | inlineData (mimeType : String) (data : String)
deriving DecidableEq, Repr

/-- HTTP outcome of a handler: a 200 response with body `A`, or a raised
`HTTPException` with a status code and a detail string. -/
inductive Response (A : Type) where
  | ok (body : A)
  | httpError (status : Nat) (detail : String)
deriving DecidableEq, Repr

/-- Python truthiness of an `Optional[str]`: `None` and `""` are falsy. -/
def truthyOptStr : Option String → Bool
  | none => false
  | some s => !(s == "")

/-- `ChatRequest` pydantic model (src/main.py lines 36-39). -/
structure ChatRequest where
  prompt : String
  image : Option String := none
  language : String := "en"

/-- Language customization (src/main.py lines 73-79): start from the English
directive, overwrite on exact match of the language code. -/
def lang_instruction (language : String) : String :=
  if language = "hi" then
    "Reply in Hindi using Devanagari script. Use simple farming terminology."
  else if language = "kn" then
    "Reply in Kannada (ಕನ್ನಡ). Use simple farming terminology."
  else if language = "te" then
    "Reply in Telugu (తెలుగు). Use simple farming terminology."
  else
    "Reply in English."

/-- The triple-quoted f-string of src/main.py lines 81-91, byte-exact
(including trailing spaces after "Expert). " and "Markdown. " and the
8-space indentation of continuation lines). -/
def system_instruction (language : String) : String :=
  "You are a Digital Krishi Officer (Agricultural Expert). \n        Your goal is to help Indian farmers with:\n        1. Crop disease identification.\n        2. Treatment recommendations.\n        3. Fertilizer advice.\n        4. General farming tips.\n        \n        "
    ++ lang_instruction language
    ++ "\n        \n        Format your response nicely with headings and bullet points using Markdown. \n        Keep the tone helpful, encouraging, and easy to understand."

/-- `final_prompt = [system_instruction, request.prompt]` (line 94). -/
def final_prompt (system_instruction prompt : String) : List Part :=
  [.text system_instruction, .text prompt]

/-- Stripping of the data-URI header (src/main.py lines 101-103):
`if "base64," in image_data: image_data = image_data.split("base64,")[1]`.
The `in` test succeeds exactly when the split has at least two fields, and
then `[1]` is the second field; otherwise the payload is left unchanged. -/
def image_data (img : String) : String :=
  match pySplit img "base64," with
  | _ :: second :: _ => second
  | _ => img

/-- `content_parts` of the image branch (src/main.py lines 105-108): an
inline-data part with hardcoded mime type `"image/jpeg"`, then the single
string `system_instruction + "\n\n" + request.prompt`. -/
def content_parts (system_instruction prompt image_data : String) : List Part :=
  [.inlineData "image/jpeg" image_data, .text (system_instruction ++ "\n\n" ++ prompt)]

/-- The apology string returned by the image branch's `except` (line 115). -/
def imageApology : String :=
  "Error processing image. Please try text only or check the image format."

/-- `chat_with_ai` (src/main.py lines 59-124). `key` is `GEMINI_API_KEY`
(`os.getenv` result); `gen` is the provider's `generate_content` composed
with `.text` (it may raise, modelled as `Except.error`). Returns the HTTP
outcome together with the list of `generate_content` invocations (each a
list of parts), in order. A call that raises is still recorded: the
outbound request was made. -/
def chat_with_ai (key : Option String) (gen : List Part → Except String String)
    (request : ChatRequest) : Response String × List (List Part) :=
  if truthyOptStr key = false then
    (.httpError 500 "Gemini API Key missing on server", [])
  else
    let sys := system_instruction request.language
    let fp := final_prompt sys request.prompt
    if truthyOptStr request.image then
      -- image branch, inner try/except (lines 97-115)
      let data := image_data (request.image.getD "")
      let cp := content_parts sys request.prompt data
      match gen cp with
      | .ok r => (.ok r, [cp])
      | .error _ => (.ok imageApology, [cp])
    else
      -- text-only path (lines 117-119), outer except (lines 121-124)
      match gen fp with
      | .ok r => (.ok r, [fp])
      | .error e => (.httpError 500 ("AI Service Error: " ++ e), [fp])

/-- Result of `requests.get(url)` as observed by `get_weather`: either the
call raised (transport error), or an HTTP response arrived with a status
code and — when the body text parses as JSON — its parsed JSON value of
type `J` (`none` models a body on which `response.json()` raises). -/
inductive FetchResult (J : Type) where
  | err (msg : String)
  | resp (status : Nat) (body : Option J)
deriving DecidableEq, Repr

/-- `WEATHER_API_BASE` constant (src/main.py line 28). -/
def WEATHER_API_BASE : String := "https://api.weatherapi.com/v1"

/-- The URL built by `get_weather` (src/main.py line 51). -/
def weatherUrl (key location : String) : String :=
  WEATHER_API_BASE ++ "/forecast.json?key=" ++ key ++ "&q=" ++ location
    ++ "&days=3&aqi=no&alerts=no"

/-- `response.raise_for_status()` raises `HTTPError` exactly for client and
server error codes, i.e. `400 <= status_code < 600`; informational,
successful and redirect statuses do not raise. -/
def raiseForStatus (status : Nat) : Bool := 400 ≤ status && status < 600

/-- `get_weather` (src/main.py lines 45-57). `key` is `WEATHER_API_KEY`;
`fetch` is the `requests.get` oracle. Returns the HTTP outcome (body of
type `J` = the parsed upstream JSON value, returned as-is) together with
the list of outbound request URLs. -/
def get_weather {J : Type} (key : Option String) (fetch : String → FetchResult J)
    (location : String) : Response J × List String :=
  if truthyOptStr key = false then
    (.httpError 500 "Weather API Key missing on server", [])
  else
    let url := weatherUrl (key.getD "") location
    match fetch url with
    | .err _ => (.httpError 500 "Failed to fetch weather", [url])
    | .resp status body =>
      if raiseForStatus status then (.httpError 500 "Failed to fetch weather", [url])
      else
        match body with
        | some j => (.ok j, [url])
        | none => (.httpError 500 "Failed to fetch weather", [url])

/-- Body of a `/api/models` 200 response: either `{"models": [...]}` or the
`{"error": str(e)}` dict of the `except` branch. -/
inductive ModelsBody where
  | models (names : List String)
  | errorField (message : String)
deriving DecidableEq, Repr

/-- `list_models` (src/main.py lines 126-132). The oracle is
`genai.list_models()` followed by extraction of each model's `.name`
(modelled as the resulting list of identifier strings), or the exception it
raised. -/
def list_models (enumerate : Except String (List String)) : Response ModelsBody :=
  match enumerate with
  | .ok names => .ok (.models names)
  | .error e => .ok (.errorField e)

/-- `read_root` (src/main.py lines 41-43). -/
def read_root : Response String := .ok "Digital Krishi Backend Running"

end DigiWeb

namespace DigiWeb

/-! ### Helper lemmas about `pySplit` -/

lemma pySplitGo_ne_nil (sep : List Char) (fuel : Nat) :
    ∀ acc s, pySplitGo sep fuel acc s ≠ [] := by
  induction fuel with
  | zero => intro acc s; cases s <;> simp [pySplitGo]
  | succ f ih =>
    intro acc s
    cases s with
    | nil => simp [pySplitGo]
    | cons c rest =>
      simp only [pySplitGo]
      split
      · simp
      · exact ih (c :: acc) rest

lemma pySplitGo_singleton (sep : List Char) (fuel : Nat) :
    ∀ acc s x, pySplitGo sep fuel acc s = [x] → x = acc.reverse ++ s := by
  induction fuel with
  | zero =>
    intro acc s x h
    cases s with
    | nil => simp [pySplitGo] at h; simp [h.symm]
    | cons c rest => simp [pySplitGo] at h; exact h.symm
  | succ f ih =>
    intro acc s x h
    cases s with
    | nil => simp [pySplitGo] at h; simp [h.symm]
    | cons c rest =>
      by_cases hp : isPrefixCL sep (c :: rest) = true
      · rw [pySplitGo, if_pos hp] at h
        simp only [List.cons.injEq] at h
        exact absurd h.2 (pySplitGo_ne_nil sep f [] (rest.drop (sep.length - 1)))
      · rw [pySplitGo, if_neg hp] at h
        have := ih (c :: acc) rest x h
        simpa [List.append_assoc] using this

lemma afterFirstCL_of_pySplitGo_pair (sep : List Char) (hsep : sep ≠ []) (fuel : Nat) :
    ∀ acc s a b, pySplitGo sep fuel acc s = [a, b] → afterFirstCL sep s = some b := by
  induction fuel with
  | zero =>
    intro acc s a b h
    cases s <;> simp [pySplitGo] at h
  | succ f ih =>
    intro acc s a b h
    cases s with
    | nil => simp [pySplitGo] at h
    | cons c rest =>
      by_cases hp : isPrefixCL sep (c :: rest) = true
      · rw [pySplitGo, if_pos hp] at h
        simp only [List.cons.injEq] at h
        have hb := pySplitGo_singleton sep f [] (rest.drop (sep.length - 1)) b h.2
        rw [afterFirstCL, if_pos hp]
        cases sep with
        | nil => exact absurd rfl hsep
        | cons d ds =>
          simp only [List.length_cons, Nat.add_sub_cancel, List.reverse_nil,
            List.nil_append] at hb
          simp [List.drop_succ_cons, hb]
      · rw [pySplitGo, if_neg hp] at h
        rw [afterFirstCL, if_neg hp]
        exact ih (c :: acc) rest a b h

lemma substringAfterFirst_of_pySplit_pair (sep s a b : String) (hsep : sep.data ≠ [])
    (h : pySplit s sep = [a, b]) : substringAfterFirst sep s = some b := by
  unfold pySplit at h
  cases hgo : pySplitGo sep.data (s.data.length + 1) [] s.data with
  | nil => rw [hgo] at h; simp at h
  | cons x t =>
    cases t with
    | nil => rw [hgo] at h; simp at h
    | cons y t2 =>
      cases t2 with
      | nil =>
        rw [hgo] at h
        simp only [List.map_cons, List.map_nil, List.cons.injEq, and_true] at h
        have hafter := afterFirstCL_of_pySplitGo_pair sep.data hsep
          (s.data.length + 1) [] s.data x y hgo
        unfold substringAfterFirst
        rw [hafter]
        simp [h.2]
      | cons z t3 =>
        rw [hgo] at h
        simp at h

lemma image_data_of_pair (img a b : String) (h : pySplit img "base64," = [a, b]) :
    image_data img = b := by
  unfold image_data
  rw [h]

lemma image_data_of_short (img : String) (h : (pySplit img "base64,").length ≤ 1) :
    image_data img = img := by
  unfold image_data
  cases hs : pySplit img "base64," with
  | nil => rfl
  | cons x t =>
    cases t with
    | nil => rfl
    | cons y t2 => rw [hs] at h; simp at h

/-! ### Claim theorems -/

set_option maxRecDepth 200000 in
/-- C1 (corrected), counterexample: for the payload
`"data:;base64,AAbase64,BB"`, in which `"base64,"` occurs twice, the image
data sent onward by the handler is `"AA"` — the portion between the first
and second occurrences — whereas the substring after the first occurrence
is `"AAbase64,BB"`; so the claim as stated fails. -/
theorem chat_image_strip_cex :
    (chat_with_ai (some "k") (fun _ => Except.ok "r")
        ⟨"p", some "data:;base64,AAbase64,BB", "en"⟩).2 =
      [content_parts (system_instruction "en") "p" "AA"]
    ∧ substringAfterFirst "base64," "data:;base64,AAbase64,BB" = some "AAbase64,BB"
    ∧ ("AA" : String) ≠ "AAbase64,BB" :=
  ⟨by decide, by decide, by decide⟩

/-- C1 (amended): for every chat request with a nonempty image payload, if
`"base64,"` occurs exactly once in the payload (the data-URI case) then the
image data sent onward to the provider equals the substring after the first
occurrence of `"base64,"`; if it does not occur, the payload is sent
unchanged; and the outbound image part carries exactly `image_data img`. -/
theorem chat_image_strip (key : Option String) (gen : List Part → Except String String)
    (prompt lang img : String) (hk : truthyOptStr key = true) (hne : ¬ img = "") :
    ((pySplit img "base64,").length = 2 →
      substringAfterFirst "base64," img = some (image_data img))
    ∧ ((pySplit img "base64,").length ≤ 1 → image_data img = img)
    ∧ (chat_with_ai key gen ⟨prompt, some img, lang⟩).2 =
        [content_parts (system_instruction lang) prompt (image_data img)] := by
  refine ⟨?_, image_data_of_short img, ?_⟩
  · intro h2
    obtain ⟨a, b, hab⟩ := List.length_eq_two.mp h2
    rw [image_data_of_pair img a b hab]
    exact substringAfterFirst_of_pySplit_pair _ img a b (by decide) hab
  · have h2 : truthyOptStr (some img) = true := by simp [truthyOptStr, hne]
    simp only [chat_with_ai, hk, Bool.true_eq_false, if_false, h2, if_true, Option.getD_some]
    cases gen (content_parts (system_instruction lang) prompt (image_data img)) <;> simp

set_option maxRecDepth 200000 in
/-- C1 witness: at the data-URI payload `"data:image/jpeg;base64,XXXX"`
(one occurrence of the marker), the data sent onward is the substring after
the first occurrence. -/
theorem chat_image_strip_witness :
    substringAfterFirst "base64," "data:image/jpeg;base64,XXXX" =
      some (image_data "data:image/jpeg;base64,XXXX")
    ∧ (chat_with_ai (some "k") (fun _ => Except.ok "r")
        ⟨"p", some "data:image/jpeg;base64,XXXX", "en"⟩).2 =
      [content_parts (system_instruction "en") "p" (image_data "data:image/jpeg;base64,XXXX")] :=
  ⟨(chat_image_strip (some "k") (fun _ => Except.ok "r") "p" "en" "data:image/jpeg;base64,XXXX"
      rfl (by decide)).1 (by decide),
   (chat_image_strip (some "k") (fun _ => Except.ok "r") "p" "en" "data:image/jpeg;base64,XXXX"
      rfl (by decide)).2.2⟩

/-- C2: for every chat request with a (truthy) image whose provider call on
the image parts fails, the handler returns a success (HTTP 200) response
whose response field is the fixed apology string — not an HTTP error. -/
theorem chat_image_error_apology (key : Option String) (gen : List Part → Except String String)
    (prompt lang img e : String) (hk : truthyOptStr key = true) (hne : ¬ img = "")
    (hfail : gen (content_parts (system_instruction lang) prompt (image_data img)) =
      Except.error e) :
    (chat_with_ai key gen ⟨prompt, some img, lang⟩).1 = Response.ok imageApology := by
  have h2 : truthyOptStr (some img) = true := by simp [truthyOptStr, hne]
  simp only [chat_with_ai, hk, Bool.true_eq_false, if_false, h2, if_true, Option.getD_some, hfail]

set_option maxRecDepth 200000 in
/-- C2 witness: a concrete request with an image and an always-failing
provider yields the 200 apology response. -/
theorem chat_image_error_apology_witness :
    (chat_with_ai (some "k") (fun _ => Except.error "boom")
        ⟨"p", some "data:image/jpeg;base64,XXXX", "en"⟩).1 = Response.ok imageApology :=
  chat_image_error_apology (some "k") (fun _ => Except.error "boom") "p" "en"
    "data:image/jpeg;base64,XXXX" "boom" rfl (by decide) rfl

set_option maxRecDepth 200000 in
/-- C3: the system instruction contains the Hindi, Kannada and Telugu
directives exactly when the language code is `"hi"`, `"kn"`, `"te"`
respectively, and contains the English directive for every other code (the
handler is total: no error for unrecognized codes). -/
theorem system_instruction_language (lang : String) :
    (containsS (system_instruction lang) "Reply in Hindi using Devanagari script. Use simple farming terminology." = true ↔ lang = "hi")
    ∧ (containsS (system_instruction lang) "Reply in Kannada (ಕನ್ನಡ). Use simple farming terminology." = true ↔ lang = "kn")
    ∧ (containsS (system_instruction lang) "Reply in Telugu (తెలుగు). Use simple farming terminology." = true ↔ lang = "te")
    ∧ (¬ lang = "hi" → ¬ lang = "kn" → ¬ lang = "te" →
        containsS (system_instruction lang) "Reply in English." = true) := by
  by_cases h1 : lang = "hi"
  · subst h1
    exact ⟨iff_of_true (by decide) rfl, iff_of_false (by decide) (by decide),
      iff_of_false (by decide) (by decide), fun h _ _ => absurd rfl h⟩
  · by_cases h2 : lang = "kn"
    · subst h2
      exact ⟨iff_of_false (by decide) (by decide), iff_of_true (by decide) rfl,
        iff_of_false (by decide) (by decide), fun _ h _ => absurd rfl h⟩
    · by_cases h3 : lang = "te"
      · subst h3
        exact ⟨iff_of_false (by decide) (by decide), iff_of_false (by decide) (by decide),
          iff_of_true (by decide) rfl, fun _ _ h => absurd rfl h⟩
      · have hli : lang_instruction lang = "Reply in English." := by
          simp only [lang_instruction, if_neg h1, if_neg h2, if_neg h3]
        have hs : system_instruction lang = system_instruction "zz" := by
          simp only [system_instruction, hli]
          decide
        rw [hs]
        exact ⟨iff_of_false (by decide) h1, iff_of_false (by decide) h2,
          iff_of_false (by decide) h3, fun _ _ _ => by decide⟩

set_option maxRecDepth 200000 in
/-- C3 witness: the Hindi directive appears for `"hi"` and the English
directive appears for the unrecognized code `"fr"`. -/
theorem system_instruction_language_witness :
    containsS (system_instruction "hi")
      "Reply in Hindi using Devanagari script. Use simple farming terminology." = true
    ∧ containsS (system_instruction "fr") "Reply in English." = true :=
  ⟨(system_instruction_language "hi").1.mpr rfl,
   (system_instruction_language "fr").2.2.2 (by decide) (by decide) (by decide)⟩

/-- C4: for every chat request with no image, the provider receives exactly
one call with exactly two parts in order: the full system instruction, then
the literal prompt. -/
theorem chat_text_parts (key : Option String) (gen : List Part → Except String String)
    (prompt lang : String) (hk : truthyOptStr key = true) :
    (chat_with_ai key gen ⟨prompt, none, lang⟩).2 =
      [final_prompt (system_instruction lang) prompt] := by
  have h2 : truthyOptStr none = false := rfl
  simp only [chat_with_ai, hk, Bool.true_eq_false, if_false, h2]
  cases gen (final_prompt (system_instruction lang) prompt) <;> simp

/-- C4 witness: the spec's example — prompt `"leaf is yellow"`, no image,
language `"hi"`. -/
theorem chat_text_parts_witness :
    (chat_with_ai (some "k") (fun _ => Except.ok "r") ⟨"leaf is yellow", none, "hi"⟩).2 =
      [final_prompt (system_instruction "hi") "leaf is yellow"] :=
  chat_text_parts (some "k") (fun _ => Except.ok "r") "leaf is yellow" "hi" rfl

/-- C5: for every chat request with a nonempty image, the provider receives
exactly one call with exactly two parts in order: an inline-data part with
the fixed mime type `"image/jpeg"` and the stripped payload, then the
single string `system_instruction ++ "\n\n" ++ prompt`. -/
theorem chat_image_parts (key : Option String) (gen : List Part → Except String String)
    (prompt lang img : String) (hk : truthyOptStr key = true) (hne : ¬ img = "") :
    (chat_with_ai key gen ⟨prompt, some img, lang⟩).2 =
      [content_parts (system_instruction lang) prompt (image_data img)] := by
  have h2 : truthyOptStr (some img) = true := by simp [truthyOptStr, hne]
  simp only [chat_with_ai, hk, Bool.true_eq_false, if_false, h2, if_true, Option.getD_some]
  cases gen (content_parts (system_instruction lang) prompt (image_data img)) <;> simp

set_option maxRecDepth 200000 in
/-- C5 witness: a concrete image request produces the image-then-text pair
of parts. -/
theorem chat_image_parts_witness :
    (chat_with_ai (some "k") (fun _ => Except.ok "r")
        ⟨"p", some "data:image/jpeg;base64,XXXX", "en"⟩).2 =
      [content_parts (system_instruction "en") "p" (image_data "data:image/jpeg;base64,XXXX")] :=
  chat_image_parts (some "k") (fun _ => Except.ok "r") "p" "en" "data:image/jpeg;base64,XXXX"
    rfl (by decide)

/-- C6: for every weather request with the weather key absent (falsy), the
handler raises HTTP 500 with the key-missing detail and performs no
outbound call (the request log is empty). -/
theorem weather_missing_key {J : Type} (key : Option String) (fetch : String → FetchResult J)
    (location : String) (hk : truthyOptStr key = false) :
    get_weather key fetch location =
      (Response.httpError 500 "Weather API Key missing on server", []) := by
  simp [get_weather, hk]

/-- C6 witness: with no key configured, the concrete request for
`"Kochi"` yields the key-missing 500 and an empty request log. -/
theorem weather_missing_key_witness :
    get_weather (none : Option String) (fun _ => FetchResult.err (J := Nat) "unreachable") "Kochi" =
      (Response.httpError 500 "Weather API Key missing on server", []) :=
  weather_missing_key none (fun _ => FetchResult.err "unreachable") "Kochi" rfl

/-- C7 (corrected), counterexample: an upstream response with the non-2xx
status 300 and a parseable JSON body does not raise in
`raise_for_status`, so the handler returns it with HTTP 200 instead of
failing with the generic 500. -/
theorem weather_non2xx_cex :
    (get_weather (some "k") (fun _ => FetchResult.resp 300 (some (0 : Nat))) "Kochi").1 =
      Response.ok 0
    ∧ (get_weather (some "k") (fun _ => FetchResult.resp 300 (some (0 : Nat))) "Kochi").1 ≠
        Response.httpError 500 "Failed to fetch weather"
    ∧ ¬ (200 ≤ 300 ∧ 300 < 300) :=
  ⟨by decide, by decide, by decide⟩

/-- C7 (amended): with the key present, if the upstream call raises a
transport error, or returns a status in [400, 600) (the statuses for which
`raise_for_status` raises), the handler fails with HTTP 500 whose
client-visible detail is exactly the fixed `"Failed to fetch weather"`,
never the upstream error detail. -/
theorem weather_failure_generic {J : Type} (key : Option String) (fetch : String → FetchResult J)
    (location : String) (hk : truthyOptStr key = true) :
    (∀ m, fetch (weatherUrl (key.getD "") location) = FetchResult.err m →
      get_weather key fetch location =
        (Response.httpError 500 "Failed to fetch weather", [weatherUrl (key.getD "") location]))
    ∧ (∀ status body, fetch (weatherUrl (key.getD "") location) = FetchResult.resp status body →
        400 ≤ status → status < 600 →
        get_weather key fetch location =
          (Response.httpError 500 "Failed to fetch weather", [weatherUrl (key.getD "") location])) := by
  constructor
  · intro m hm
    simp [get_weather, hk, hm]
  · intro status body hm h4 h6
    have hr : raiseForStatus status = true := by
      simp only [raiseForStatus, Bool.and_eq_true, decide_eq_true_eq]
      exact ⟨h4, h6⟩
    simp [get_weather, hk, hm, hr]

/-- C7 witness: a concrete 404 upstream response yields the generic 500. -/
theorem weather_failure_generic_witness :
    get_weather (some "k") (fun _ => FetchResult.resp 404 (none : Option Nat)) "Kochi" =
      (Response.httpError 500 "Failed to fetch weather", [weatherUrl "k" "Kochi"]) :=
  (weather_failure_generic (some "k") (fun _ => FetchResult.resp 404 none) "Kochi" rfl).2
    404 none rfl (by decide) (by decide)

/-- C8: with the key present, a 2xx upstream response whose body parses as
the JSON value `j` is returned to the client as exactly `j` — the upstream
body passes through unmodified. -/
theorem weather_success_passthrough {J : Type} (key : Option String)
    (fetch : String → FetchResult J) (location : String) (j : J) (status : Nat)
    (hk : truthyOptStr key = true)
    (hm : fetch (weatherUrl (key.getD "") location) = FetchResult.resp status (some j))
    (h2 : 200 ≤ status) (h3 : status < 300) :
    get_weather key fetch location = (Response.ok j, [weatherUrl (key.getD "") location]) := by
  have hr : raiseForStatus status = false := by
    have : ¬ 400 ≤ status := by omega
    simp [raiseForStatus, this]
  simp [get_weather, hk, hm, hr]

/-- C8 witness: the spec's example — location `"Kochi"`, a valid key and a
200 upstream response — passes the upstream JSON value through. -/
theorem weather_success_passthrough_witness :
    get_weather (some "k") (fun _ => FetchResult.resp 200 (some (7 : Nat))) "Kochi" =
      (Response.ok 7, [weatherUrl "k" "Kochi"]) :=
  weather_success_passthrough (some "k") (fun _ => FetchResult.resp 200 (some 7)) "Kochi" 7 200
    rfl rfl (by decide) (by decide)

/-- C9: the model-list handler always returns an HTTP 200 response: the
model identifiers on success, and a body with an error field holding the
exception text on failure — never an HTTP error status. -/
theorem list_models_always_ok :
    (∀ r, ∃ b, list_models r = Response.ok b)
    ∧ (∀ names, list_models (Except.ok names) = Response.ok (ModelsBody.models names))
    ∧ (∀ e, list_models (Except.error e) = Response.ok (ModelsBody.errorField e)) := by
  refine ⟨fun r => ?_, fun _ => rfl, fun _ => rfl⟩
  cases r with
  | ok names => exact ⟨.models names, rfl⟩
  | error e => exact ⟨.errorField e, rfl⟩

/-- C10: an image field present but equal to the empty string is falsy, so
the handler takes the text-only path: the provider receives the two-part
`[system_instruction, prompt]` call and no image part is constructed. -/
theorem chat_empty_image_parts (key : Option String) (gen : List Part → Except String String)
    (prompt lang : String) (hk : truthyOptStr key = true) :
    (chat_with_ai key gen ⟨prompt, some "", lang⟩).2 =
      [final_prompt (system_instruction lang) prompt] := by
  have h2 : truthyOptStr (some "") = false := by simp [truthyOptStr]
  simp only [chat_with_ai, hk, Bool.true_eq_false, if_false, h2]
  cases gen (final_prompt (system_instruction lang) prompt) <;> simp

/-- C10 witness: a concrete request with `image = some ""` produces the
text-only pair of parts. -/
theorem chat_empty_image_parts_witness :
    (chat_with_ai (some "k") (fun _ => Except.ok "r") ⟨"leaf is yellow", some "", "en"⟩).2 =
      [final_prompt (system_instruction "en") "leaf is yellow"] :=
  chat_empty_image_parts (some "k") (fun _ => Except.ok "r") "leaf is yellow" "en" rfl

end DigiWeb
